import Mathlib

/-!
Formal model of the FreePunch (checador) core logic: the fingerprint
identification engine (src/checador/fingerprint.py), the punch sync worker
(src/checador/sync.py) and the enrollment sample capture endpoint
(src/checador/api/admin.py), shallowly embedded as executable Lean
definitions, with theorems settling the specification claims.
-/

namespace Checador

/-! ## Identification engine: FingerprintMatcher.identify

The matcher collaborator (bozorth3 via match_fingerprints) is modelled as an
oracle from the gallery xyt path to an optional integer score; none models a
failed matcher invocation. The probe is fixed and folded into the oracle. -/

/-- The body of the loop in FingerprintMatcher.identify: given the running
(best_template_id, best_score) accumulator and a gallery entry
(template_id, xyt_path), a failed match (none) is skipped and a successful
score replaces the best only when strictly greater. -/
def identifyStep (m : String → Option Int) (best : Option Nat × Int)
    (t : Nat × String) : Option Nat × Int :=
  match m t.2 with
  | none => best
  | some score => if best.2 < score then (some t.1, score) else best

/-- The gallery scan of FingerprintMatcher.identify: fold the loop body over
the gallery starting from (best_template_id, best_score) = (none, 0). -/
def identifyFold (m : String → Option Int) (gallery : List (Nat × String)) :
    Option Nat × Int :=
  gallery.foldl (identifyStep m) (none, 0)

/-- FingerprintMatcher.identify: return (best_template_id, best_score) when
best_score >= match_threshold, otherwise None. -/
def identify (m : String → Option Int) (match_threshold : Int)
    (gallery : List (Nat × String)) : Option (Option Nat × Int) :=
  if match_threshold ≤ (identifyFold m gallery).2 then
    some (identifyFold m gallery)
  else none

/-- The successful match scores of a gallery scan, in gallery order. -/
def galleryScores (m : String → Option Int) (gallery : List (Nat × String)) :
    List Int :=
  gallery.filterMap (fun t => m t.2)

/-! ## Data model shared by the sync worker and the admin endpoints

The database collaborator (checador.database) is an external repository; the
record shapes and operations below are modelled from the spec where the sync
worker and the enrollment endpoint read or write them. Timestamps are
abstracted as natural-number ticks; isoformat rendering is irrelevant to the
claims. -/

/-- Sync status of a Punch record: unsynced, synced or error. -/
inductive SyncStatus where
  | unsynced
  | synced
  | error
deriving DecidableEq

/-- A user row: identifier, display name, unique employee code, active flag. -/
structure User where
  id : Nat
  name : String
  employee_code : String
  active : Bool
deriving DecidableEq

/-- A punch row with its sync status and last sync error message. -/
structure Punch where
  id : Nat
  user_id : Nat
  timestamp_utc : Nat
  timestamp_local : Nat
  punch_type : String
  match_score : Int
  device_id : String
  sync_status : SyncStatus
  sync_error : Option String
deriving DecidableEq

/-- A stored fingerprint template row: owning user, xyt path, quality. -/
structure TemplateRec where
  user_id : Nat
  path : String
  quality : Nat
deriving DecidableEq

/-- The database state visible to the modelled operations. -/
structure DB where
  users : List User
  punches : List Punch
  templates : List TemplateRec
deriving DecidableEq

/-- Modelled from the spec: Database.get_user (checador/database.py is not in
the sources) — look up a user row by id. -/
def DB.get_user (db : DB) (uid : Nat) : Option User :=
  db.users.find? (fun u => u.id == uid)

/-- Modelled from the spec: Database.get_unsynced_punches (checador/database.py
is not in the sources) — up to limit punches whose status is not synced (the
spec treats error as a sub-state of not-yet-synced for selection), oldest
first; the stored list order is creation order. -/
def DB.get_unsynced_punches (db : DB) (limit : Nat) : List Punch :=
  (db.punches.filter (fun p => !(p.sync_status == SyncStatus.synced))).take limit

/-- Modelled from the spec: Database.mark_punches_synced (checador/database.py
is not in the sources) — set status synced on every punch whose id is listed. -/
def DB.mark_punches_synced (db : DB) (ids : List Nat) : DB :=
  { db with punches := db.punches.map (fun p =>
      if p.id ∈ ids then { p with sync_status := SyncStatus.synced } else p) }

/-- Modelled from the spec: Database.mark_punch_sync_error (checador/database.py
is not in the sources) — set status error and record the failure message on
the punch with the given id. -/
def DB.mark_punch_sync_error (db : DB) (pid : Nat) (msg : String) : DB :=
  { db with punches := db.punches.map (fun p =>
      if p.id = pid then
        { p with sync_status := SyncStatus.error, sync_error := some msg }
      else p) }

/-- Modelled from the spec: Database.add_template (checador/database.py is not
in the sources) — persist a template row for the user. -/
def DB.add_template (db : DB) (uid : Nat) (path : String) (q : Nat) : DB :=
  { db with templates := db.templates ++ [⟨uid, path, q⟩] }

/-- Number of stored templates owned by a user. -/
def DB.template_count (db : DB) (uid : Nat) : Nat :=
  (db.templates.filter (fun t => t.user_id == uid)).length

/-! ## Sync worker: SyncWorker (src/checador/sync.py) -/

/-- The server section of the configuration (checador/config.py,
ServerConfig). -/
structure ServerConfig where
  enabled : Bool
  url : String
  api_key : String
  sync_interval_seconds : Nat
  retry_max_attempts : Nat
  retry_backoff_base : Nat
deriving DecidableEq

/-- One payload entry built by SyncWorker.sync_now for a punch whose user
resolved. -/
structure PunchPayload where
  user_id : Nat
  employee_code : String
  timestamp_utc : Nat
  timestamp_local : Nat
  punch_type : String
  match_score : Int
  device_id : String
deriving DecidableEq

/-- The behavior of the remote endpoint on this cycle: an HTTP response with
status code and body text, or a transport error raised by the client. -/
inductive NetResult where
  | resp (status_code : Nat) (text : String)
  | exn (msg : String)
deriving DecidableEq

/-- Observable outcome of one SyncWorker.sync_now call: the returned boolean,
the database afterwards, and the request sent to the network (none when no
network contact was attempted; otherwise the device id and punch list posted). -/
structure SyncOutcome where
  ok : Bool
  db : DB
  sent : Option (String × List PunchPayload)
deriving DecidableEq

/-- SyncWorker.sync_now: short-circuit to success when sync is disabled or the
URL is unset; read up to 100 unsynced punches; empty batch is a no-op success;
build the payload skipping punches whose user does not resolve; post; on HTTP
200 mark every punch of the fetched batch synced; on any other status mark
every punch of the batch error with the response detail and fail; a transport
error is caught and the call fails with no status change. -/
def sync_now (cfg : ServerConfig) (device_id : String) (db : DB)
    (net : NetResult) : SyncOutcome :=
  if cfg.enabled = false then ⟨true, db, none⟩
  else if cfg.url = "" then ⟨true, db, none⟩
  else
    let punches := db.get_unsynced_punches 100
    if punches.isEmpty then ⟨true, db, none⟩
    else
      let punch_data := punches.filterMap (fun p =>
        (db.get_user p.user_id).map (fun u =>
          ⟨u.id, u.employee_code, p.timestamp_utc, p.timestamp_local,
           p.punch_type, p.match_score, p.device_id⟩))
      let payload := (device_id, punch_data)
      match net with
      | NetResult.resp status text =>
          if status = 200 then
            ⟨true, db.mark_punches_synced (punches.map (fun p => p.id)),
             some payload⟩
          else
            ⟨false,
             punches.foldl (fun d p =>
               d.mark_punch_sync_error p.id
                 ("Server returned " ++ toString status ++ ": " ++ text)) db,
             some payload⟩
      | NetResult.exn _ => ⟨false, db, some payload⟩

/-- SyncWorker.start: whether a background loop task is created — not when
sync is disabled, and not when the worker is already running. -/
def startLaunchesLoop (cfg : ServerConfig) (running : Bool) : Bool :=
  if cfg.enabled = false then false
  else if running then false
  else true

/-- One scheduling decision of SyncWorker._sync_loop: given the current retry
count and whether sync_now succeeded, the new retry count and the seconds
slept before the next cycle. -/
def loopStep (cfg : ServerConfig) (retry_count : Nat) (success : Bool) :
    Nat × Nat :=
  if success then (0, cfg.sync_interval_seconds)
  else
    (min (retry_count + 1) cfg.retry_max_attempts,
     cfg.retry_backoff_base ^ min (retry_count + 1) cfg.retry_max_attempts)

/-- Retry counter held by _sync_loop after k consecutive failed cycles
starting from a fresh (or just-successful) state. -/
def failState (cfg : ServerConfig) : Nat → Nat
  | 0 => 0
  | k + 1 => (loopStep cfg (failState cfg k) false).1

/-- Seconds slept after the (k+1)-th consecutive failed cycle. -/
def failDelay (cfg : ServerConfig) (k : Nat) : Nat :=
  (loopStep cfg (failState cfg k) false).2

/-! ## Enrollment sample capture: capture_sample (src/checador/api/admin.py) -/

/-- Result of FingerprintMatcher.extract_features as consumed by
capture_sample: failure, or success with the xyt path and quality score. -/
inductive ExtractionRes where
  | failed
  | ok (xyt : String) (quality : Nat)
deriving DecidableEq

/-- The CaptureResponse model returned by the enrollment capture endpoint. -/
structure CaptureResponse where
  success : Bool
  quality : Nat
  sample_number : Nat
  message : String
deriving DecidableEq

/-- capture_sample: resolve the user, capture from the camera, extract
features, gate on min_quality_score, and only then persist a template. The
camera and extractor collaborators are passed as their outcomes. -/
def capture_sample (min_quality : Nat) (db : DB) (user_id sample_number : Nat)
    (camera_ok : Bool) (camera_err : Option String) (ex : ExtractionRes) :
    CaptureResponse × DB :=
  match db.get_user user_id with
  | none => (⟨false, 0, sample_number, "User not found"⟩, db)
  | some user =>
    if camera_ok = false then
      (⟨false, 0, sample_number, camera_err.getD "Capture failed"⟩, db)
    else
      match ex with
      | ExtractionRes.failed =>
          (⟨false, 0, sample_number, "Feature extraction failed"⟩, db)
      | ExtractionRes.ok xyt q =>
          if q < min_quality then
            (⟨false, q, sample_number,
              "Low quality fingerprint (score=" ++ toString q
                ++ ", minimum=" ++ toString min_quality ++ ")"⟩, db)
          else
            (⟨true, q, sample_number, "Sample captured successfully"⟩,
             db.add_template user.id xyt q)

/-! ## Concrete instances used by counterexamples and witnesses -/

/-- A matcher oracle on which every invocation scores 50. -/
def mTie : String → Option Int := fun _ => some 50

/-- A matcher oracle scoring 10 on the path "c" and 50 elsewhere, so a
lower-scoring entry can precede a tie at the maximum. -/
def mTie2 : String → Option Int := fun x => if x = "c" then some 10 else some 50

/-- A server configuration with sync enabled, base-2 backoff capped at 5. -/
def cfgOn : ServerConfig :=
  { enabled := true, url := "http://srv", api_key := "k",
    sync_interval_seconds := 300, retry_max_attempts := 5,
    retry_backoff_base := 2 }

/-- An unsynced punch owned by user 99, who is absent from dbOrphan. -/
def orphanPunch : Punch :=
  { id := 1, user_id := 99, timestamp_utc := 0, timestamp_local := 0,
    punch_type := "in", match_score := 50, device_id := "DEV",
    sync_status := SyncStatus.unsynced, sync_error := none }

/-- A database holding one unsynced punch whose owning user is missing. -/
def dbOrphan : DB := { users := [], punches := [orphanPunch], templates := [] }

/-- A user present in dbOne. -/
def u7 : User := { id := 7, name := "Ana", employee_code := "E7", active := true }

/-- An unsynced punch owned by u7. -/
def p7 : Punch :=
  { id := 2, user_id := 7, timestamp_utc := 10, timestamp_local := 5,
    punch_type := "in", match_score := 44, device_id := "DEV",
    sync_status := SyncStatus.unsynced, sync_error := none }

/-- A database holding u7 and one unsynced punch of u7. -/
def dbOne : DB := { users := [u7], punches := [p7], templates := [] }

/-- A database with one enrolled-in-progress user and no templates. -/
def dbU : DB := { users := [u7], punches := [], templates := [] }

/-- The same server configuration with sync disabled. -/
def cfgOff : ServerConfig := { cfgOn with enabled := false }

/-! ### Helper lemmas about the gallery fold -/

theorem le_foldl_max_init : ∀ (l : List Int) (a : Int), a ≤ l.foldl max a := by
  intro l
  induction l with
  | nil => intro a; exact le_refl a
  | cons s l ih => intro a; exact le_trans (le_max_left a s) (ih (max a s))

theorem foldl_max_le_of : ∀ (l : List Int) (a b : Int), a ≤ b →
    (∀ s ∈ l, s ≤ b) → l.foldl max a ≤ b := by
  intro l
  induction l with
  | nil => intro a b hab _; exact hab
  | cons s l ih =>
    intro a b hab hl
    exact ih (max a s) b (max_le hab (hl s (List.mem_cons_self s l)))
      (fun x hx => hl x (List.mem_cons_of_mem s hx))

theorem foldl_max_lt_of : ∀ (l : List Int) (a b : Int), a < b →
    (∀ s ∈ l, s < b) → l.foldl max a < b := by
  intro l
  induction l with
  | nil => intro a b hab _; exact hab
  | cons s l ih =>
    intro a b hab hl
    exact ih (max a s) b (max_lt hab (hl s (List.mem_cons_self s l)))
      (fun x hx => hl x (List.mem_cons_of_mem s hx))

theorem mem_le_foldl_max : ∀ (l : List Int) (a s : Int), s ∈ l →
    s ≤ l.foldl max a := by
  intro l
  induction l with
  | nil => intro a s hs; exact absurd hs (List.not_mem_nil s)
  | cons t l ih =>
    intro a s hs
    rcases List.mem_cons.mp hs with h | h
    · subst h
      exact le_trans (le_max_right a s) (le_foldl_max_init l (max a s))
    · exact ih (max a t) s h

theorem identifyFold_go_snd (m : String → Option Int) :
    ∀ (g : List (Nat × String)) (acc : Option Nat × Int),
      (g.foldl (identifyStep m) acc).2 = (galleryScores m g).foldl max acc.2 := by
  intro g
  induction g with
  | nil => intro acc; simp [galleryScores]
  | cons t g ih =>
    intro acc
    rcases h : m t.2 with _ | s
    · rw [List.foldl_cons]
      have hstep : identifyStep m acc t = acc := by simp [identifyStep, h]
      rw [hstep, ih]
      simp [galleryScores, List.filterMap_cons, h]
    · rw [List.foldl_cons, ih]
      have hstep : (identifyStep m acc t).2 = max acc.2 s := by
        simp only [identifyStep, h]
        split
        · exact (max_eq_right (le_of_lt (by assumption))).symm
        · exact (max_eq_left (le_of_not_lt (by assumption))).symm
      rw [hstep]
      simp [galleryScores, List.filterMap_cons, h]

theorem identifyFold_snd (m : String → Option Int)
    (g : List (Nat × String)) :
    (identifyFold m g).2 = (galleryScores m g).foldl max 0 :=
  identifyFold_go_snd m g (none, 0)

theorem identifyFold_go_keep (m : String → Option Int) :
    ∀ (g : List (Nat × String)) (acc : Option Nat × Int),
      (∀ s ∈ galleryScores m g, s ≤ acc.2) →
      g.foldl (identifyStep m) acc = acc := by
  intro g
  induction g with
  | nil => intro acc _; rfl
  | cons t g ih =>
    intro acc hb
    rcases h : m t.2 with _ | s
    · have hgs : galleryScores m (t :: g) = galleryScores m g := by
        simp [galleryScores, List.filterMap_cons, h]
      rw [List.foldl_cons]
      have hstep : identifyStep m acc t = acc := by simp [identifyStep, h]
      rw [hstep]
      refine ih acc (fun x hx => hb x ?_)
      rw [hgs]
      exact hx
    · have hgs : galleryScores m (t :: g) = s :: galleryScores m g := by
        simp [galleryScores, List.filterMap_cons, h]
      have hs : s ≤ acc.2 := by
        refine hb s ?_
        rw [hgs]
        exact List.mem_cons_self s _
      rw [List.foldl_cons]
      have hstep : identifyStep m acc t = acc := by
        simp [identifyStep, h, not_lt_of_le hs]
      rw [hstep]
      refine ih acc (fun x hx => hb x ?_)
      rw [hgs]
      exact List.mem_cons_of_mem s hx

theorem identifyFold_go_filter (m : String → Option Int) :
    ∀ (g : List (Nat × String)) (acc : Option Nat × Int),
      g.foldl (identifyStep m) acc
        = (g.filter (fun t => (m t.2).isSome)).foldl (identifyStep m) acc := by
  intro g
  induction g with
  | nil => intro acc; rfl
  | cons t g ih =>
    intro acc
    rcases h : m t.2 with _ | s
    · have hstep : identifyStep m acc t = acc := by simp [identifyStep, h]
      rw [List.foldl_cons, hstep, List.filter_cons]
      simp only [h, Option.isSome_none]
      exact ih acc
    · rw [List.foldl_cons, List.filter_cons]
      simp only [h, Option.isSome_some, if_pos]
      rw [List.foldl_cons]
      exact ih (identifyStep m acc t)

theorem identifyFold_go_pos (m : String → Option Int) :
    ∀ (g : List (Nat × String)) (acc : Option Nat × Int), 0 ≤ acc.2 →
      ∀ i, (g.foldl (identifyStep m) acc).1 = some i →
        acc.1 = some i ∨ ∃ t ∈ g, t.1 = i ∧ ∃ s, m t.2 = some s ∧ 0 < s := by
  intro g
  induction g with
  | nil => intro acc _ i hi; exact Or.inl hi
  | cons t g ih =>
    intro acc hacc i hi
    rw [List.foldl_cons] at hi
    rcases h : m t.2 with _ | s
    · have hstep : identifyStep m acc t = acc := by simp [identifyStep, h]
      rw [hstep] at hi
      rcases ih acc hacc i hi with h1 | ⟨t', ht', h1, h2⟩
      · exact Or.inl h1
      · exact Or.inr ⟨t', List.mem_cons_of_mem t ht', h1, h2⟩
    · by_cases hlt : acc.2 < s
      · have hstep : identifyStep m acc t = (some t.1, s) := by
          simp [identifyStep, h, hlt]
        rw [hstep] at hi
        have hspos : 0 < s := lt_of_le_of_lt hacc hlt
        rcases ih (some t.1, s) (le_of_lt hspos) i hi with h1 | ⟨t', ht', h1, h2⟩
        · refine Or.inr ⟨t, List.mem_cons_self t g, ?_, s, h, hspos⟩
          exact Option.some_inj.mp h1
        · exact Or.inr ⟨t', List.mem_cons_of_mem t ht', h1, h2⟩
      · have hstep : identifyStep m acc t = acc := by
          simp [identifyStep, h, hlt]
        rw [hstep] at hi
        rcases ih acc hacc i hi with h1 | ⟨t', ht', h1, h2⟩
        · exact Or.inl h1
        · exact Or.inr ⟨t', List.mem_cons_of_mem t ht', h1, h2⟩

/-! ### Claims about the identification engine -/

/-- C2 (counterexample): two galleries holding the same two templates, both
scoring 50, yield different winners depending on iteration order — so no
user-template-count / earliest-created tie-break independent of gallery
iteration order is applied; the first maximal-scoring template encountered
wins. -/
theorem identify_tie_depends_on_order :
    identify mTie 40 [(1, "a"), (2, "b")] = some (some 1, 50)
    ∧ identify mTie 40 [(2, "b"), (1, "a")] = some (some 2, 50) := by
  constructor <;> rfl

/-- C2 (amended): in any gallery, the winner of a tie at the (positive,
threshold-clearing) maximum score s is the first entry attaining s in gallery
iteration order: every entry before it scores strictly below s or fails, every
entry after it scores at most s, and the result is that first entry — ties at
the maximum are broken by iteration order (strictly-greater replacement), not
by user template counts or template creation times. -/
theorem identify_tie_first_in_order_wins (m : String → Option Int)
    (pre rest : List (Nat × String)) (i : Nat) (x : String)
    (match_threshold s : Int)
    (hx : m x = some s) (hpos : 0 < s) (hth : match_threshold ≤ s)
    (hpre : ∀ t ∈ pre, ∀ s2 : Int, m t.2 = some s2 → s2 < s)
    (hrest : ∀ t ∈ rest, ∀ s2 : Int, m t.2 = some s2 → s2 ≤ s) :
    identify m match_threshold (pre ++ (i, x) :: rest) = some (some i, s) := by
  have hpre2 : (pre.foldl (identifyStep m) (none, 0)).2 < s := by
    rw [identifyFold_go_snd]
    refine foldl_max_lt_of (galleryScores m pre) _ s hpos ?_
    intro s2 hs2
    rcases List.mem_filterMap.mp hs2 with ⟨t, ht, hmt⟩
    exact hpre t ht s2 hmt
  have hstep : identifyStep m (pre.foldl (identifyStep m) (none, 0)) (i, x)
      = (some i, s) := by
    simp [identifyStep, hx, hpre2]
  have hkeep : rest.foldl (identifyStep m) (some i, s) = (some i, s) := by
    refine identifyFold_go_keep m rest (some i, s) ?_
    intro s2 hs2
    rcases List.mem_filterMap.mp hs2 with ⟨t, ht, hmt⟩
    exact hrest t ht s2 hmt
  have hfold : identifyFold m (pre ++ (i, x) :: rest) = (some i, s) := by
    unfold identifyFold
    rw [List.foldl_append, List.foldl_cons, hstep, hkeep]
  unfold identify
  rw [hfold, if_pos hth]

/-- C2 (witness): the amended tie-break theorem applied at a concrete gallery
where a lower-scoring entry precedes a two-way tie at the maximum: the first
tied entry, not the head of the list, wins. -/
theorem identify_tie_first_in_order_wins_witness :
    identify mTie2 40 [(3, "c"), (1, "a"), (2, "b")] = some (some 1, 50) :=
  identify_tie_first_in_order_wins mTie2 [(3, "c")] [(2, "b")] 1 "a" 40 50
    (by decide) (by decide) (by decide)
    (fun t ht s2 hs2 => by
      have ht' : t = (3, "c") := by simpa using ht
      rw [ht'] at hs2
      simp [mTie2] at hs2
      omega)
    (fun t ht s2 hs2 => by
      have ht' : t = (2, "b") := by simpa using ht
      rw [ht'] at hs2
      simp [mTie2] at hs2
      omega)

/-- C4: identify returns a match exactly when the maximum gallery score M
(a member of the successful scores that bounds them all, non-negative per the
Matcher contract) is greater than or equal to the threshold; the match carries
M as its score, and when M is below the threshold the result is None while
the tracked best score — the value the code reports for diagnostics — still
equals M. -/
theorem identify_matches_iff_max_ge_threshold (m : String → Option Int)
    (g : List (Nat × String)) (match_threshold M : Int)
    (hmem : M ∈ galleryScores m g)
    (hub : ∀ s ∈ galleryScores m g, s ≤ M) (hnn : 0 ≤ M) :
    ((identify m match_threshold g).isSome = true ↔ match_threshold ≤ M)
    ∧ (match_threshold ≤ M →
        identify m match_threshold g = some ((identifyFold m g).1, M))
    ∧ (M < match_threshold →
        identify m match_threshold g = none ∧ (identifyFold m g).2 = M) := by
  have hsnd : (identifyFold m g).2 = M := by
    rw [identifyFold_snd]
    exact le_antisymm (foldl_max_le_of (galleryScores m g) 0 M hnn hub)
      (mem_le_foldl_max (galleryScores m g) 0 M hmem)
  refine ⟨?_, ?_, ?_⟩
  · unfold identify
    rw [hsnd]
    by_cases h : match_threshold ≤ M
    · rw [if_pos h]
      simp [h]
    · rw [if_neg h]
      simp [h]
  · intro h
    unfold identify
    rw [hsnd, if_pos h]
    have : identifyFold m g = ((identifyFold m g).1, M) := by
      rw [← hsnd]
    rw [← this]
  · intro h
    refine ⟨?_, hsnd⟩
    unfold identify
    rw [hsnd, if_neg (not_le.mpr h)]

/-- C4 (witness): a one-template gallery scoring 50 against threshold 40 is
matched, via the threshold theorem at concrete inputs. -/
theorem identify_matches_iff_max_ge_threshold_witness :
    (identify mTie 40 [(1, "a")]).isSome = true :=
  (identify_matches_iff_max_ge_threshold mTie [(1, "a")] 40 50
      (by decide)
      (fun s hs => by
        have h50 : s = 50 := by
          have : some s = some (50 : Int) := by
            simpa [galleryScores, mTie] using hs
          exact Option.some_inj.mp this
        rw [h50])
      (by decide)).1.mpr (by decide)

/-- C7: failed matcher invocations are skipped without affecting the scan —
the identification result over a gallery equals the result over exactly the
templates whose matcher call succeeded. -/
theorem identify_skips_failed_matches (m : String → Option Int)
    (match_threshold : Int) (g : List (Nat × String)) :
    identify m match_threshold g
      = identify m match_threshold (g.filter (fun t => (m t.2).isSome)) := by
  unfold identify identifyFold
  rw [identifyFold_go_filter m g (none, 0)]

/-- C10: the running best score starts at 0 and only a strictly greater score
replaces it, so the tracked best score is never negative, a selected template
always has a positive score, and when no matcher call succeeds the result is
some (none, 0) for a threshold at most 0 but none for a positive threshold. -/
theorem identify_best_score_zero_init (m : String → Option Int)
    (g : List (Nat × String)) (match_threshold : Int) :
    0 ≤ (identifyFold m g).2
    ∧ (∀ i, (identifyFold m g).1 = some i →
        ∃ t ∈ g, t.1 = i ∧ ∃ s, m t.2 = some s ∧ 0 < s)
    ∧ (galleryScores m g = [] → match_threshold ≤ 0 →
        identify m match_threshold g = some (none, 0))
    ∧ (galleryScores m g = [] → 0 < match_threshold →
        identify m match_threshold g = none) := by
  have hfold_empty : galleryScores m g = [] → identifyFold m g = (none, 0) := by
    intro hgs
    refine identifyFold_go_keep m g (none, 0) ?_
    intro s hs
    rw [hgs] at hs
    exact absurd hs (List.not_mem_nil s)
  refine ⟨?_, ?_, ?_, ?_⟩
  · rw [identifyFold_snd]
    exact le_foldl_max_init (galleryScores m g) 0
  · intro i hi
    rcases identifyFold_go_pos m g (none, 0) (le_refl 0) i hi with h | h
    · exact absurd h (by simp)
    · exact h
  · intro hgs hth
    unfold identify
    rw [hfold_empty hgs]
    rw [if_pos hth]
  · intro hgs hth
    unfold identify
    rw [hfold_empty hgs]
    rw [if_neg (not_le.mpr hth)]

/-- C10 (witness): on the empty gallery, threshold 0 yields some (none, 0)
and threshold 1 yields none, via the zero-init theorem at concrete inputs. -/
theorem identify_best_score_zero_init_witness :
    identify mTie 0 ([] : List (Nat × String)) = some (none, 0)
    ∧ identify mTie 1 ([] : List (Nat × String)) = none :=
  ⟨(identify_best_score_zero_init mTie [] 0).2.2.1 rfl (by decide),
   (identify_best_score_zero_init mTie [] 1).2.2.2 rfl (by decide)⟩

/-! ### Helper lemmas about the sync worker -/

theorem mark_error_fold (msg : String) :
    ∀ (l : List Punch) (db : DB),
      (l.foldl (fun d p => d.mark_punch_sync_error p.id msg) db).punches
        = db.punches.map (fun q =>
            if q.id ∈ l.map (fun p => p.id) then
              { q with sync_status := SyncStatus.error, sync_error := some msg }
            else q) := by
  intro l
  induction l with
  | nil =>
    intro db
    simp
  | cons p l ih =>
    intro db
    rw [List.foldl_cons, ih]
    unfold DB.mark_punch_sync_error
    simp only []
    rw [List.map_map]
    refine congrArg (fun f => List.map f db.punches) (funext fun q => ?_)
    by_cases hq : q.id = p.id
    · simp only [Function.comp, hq, if_pos rfl, List.map_cons, List.mem_cons]
      by_cases hm : p.id ∈ l.map (fun p => p.id) <;> simp [hm]
    · simp only [Function.comp, hq, if_neg hq, List.map_cons, List.mem_cons]
      simp [hq]

/-! ### Claims about the sync worker -/

/-- C1 (counterexample): with one unsynced punch whose owning user cannot be
resolved, a cycle accepted with HTTP 200 sends an empty payload — the punch
was skipped — yet the punch is marked synced, instead of remaining unsynced
for the next cycle. -/
theorem sync_success_marks_skipped_punch :
    (sync_now cfgOn "DEV" dbOrphan (NetResult.resp 200 "")).sent
      = some ("DEV", [])
    ∧ (sync_now cfgOn "DEV" dbOrphan (NetResult.resp 200 "")).db.punches.map
        (fun p => (p.id, p.sync_status))
      = [(1, SyncStatus.synced)] := by
  constructor <;> rfl

/-- C1 (amended): when the endpoint accepts the batch with HTTP 200, the cycle
succeeds and every punch of the fetched batch — including punches skipped
from the payload because their owning user could not be resolved — is marked
synced, while punches outside the batch are left untouched. -/
theorem sync_success_marks_whole_batch (cfg : ServerConfig) (dev : String)
    (db : DB) (t : String) (hen : cfg.enabled = true) (hurl : cfg.url ≠ "") :
    (sync_now cfg dev db (NetResult.resp 200 t)).ok = true
    ∧ (∀ p ∈ db.get_unsynced_punches 100,
        { p with sync_status := SyncStatus.synced }
          ∈ (sync_now cfg dev db (NetResult.resp 200 t)).db.punches)
    ∧ (∀ q ∈ db.punches,
        q.id ∉ (db.get_unsynced_punches 100).map (fun p => p.id) →
        q ∈ (sync_now cfg dev db (NetResult.resp 200 t)).db.punches) := by
  by_cases hb : (db.get_unsynced_punches 100).isEmpty = true
  · have hnil : db.get_unsynced_punches 100 = [] := by
      simpa using hb
    have hout : sync_now cfg dev db (NetResult.resp 200 t) = ⟨true, db, none⟩ := by
      simp [sync_now, hen, hurl, hb]
    rw [hout]
    refine ⟨rfl, ?_, ?_⟩
    · intro p hp
      rw [hnil] at hp
      exact absurd hp (List.not_mem_nil p)
    · intro q hq _
      exact hq
  · have hok : (sync_now cfg dev db (NetResult.resp 200 t)).ok = true := by
      simp [sync_now, hen, hurl, hb]
    have hdb : (sync_now cfg dev db (NetResult.resp 200 t)).db.punches
        = db.punches.map (fun q =>
            if q.id ∈ (db.get_unsynced_punches 100).map (fun p => p.id) then
              { q with sync_status := SyncStatus.synced }
            else q) := by
      simp [sync_now, hen, hurl, hb, DB.mark_punches_synced]
    refine ⟨hok, ?_, ?_⟩
    · intro p hp
      rw [hdb]
      have hpdb : p ∈ db.punches := by
        have h1 : p ∈ db.punches.filter
            (fun p => !(p.sync_status == SyncStatus.synced)) :=
          List.take_subset 100 _ hp
        exact List.mem_of_mem_filter h1
      refine List.mem_map.mpr ⟨p, hpdb, ?_⟩
      rw [if_pos (List.mem_map_of_mem (fun p => p.id) hp)]
    · intro q hq hnid
      rw [hdb]
      exact List.mem_map.mpr ⟨q, hq, by rw [if_neg hnid]⟩

/-- C1 (witness): on a database with one resolvable unsynced punch, an
accepted cycle succeeds, via the amended theorem at concrete inputs. -/
theorem sync_success_marks_whole_batch_witness :
    (sync_now cfgOn "DEV" dbOne (NetResult.resp 200 "")).ok = true :=
  (sync_success_marks_whole_batch cfgOn "DEV" dbOne "" rfl (by decide)).1

/-- C3 (counterexample): when the transport raises ("timeout") on a batch of
one unsynced punch, the cycle fails but the punch is NOT marked error — its
status and error message are unchanged — contradicting the claim that every
punch of the batch is marked error on transport errors. -/
theorem sync_transport_error_leaves_status :
    (sync_now cfgOn "DEV" dbOne (NetResult.exn "timeout")).ok = false
    ∧ (sync_now cfgOn "DEV" dbOne (NetResult.exn "timeout")).db.punches.map
        (fun p => (p.sync_status, p.sync_error))
      = [(SyncStatus.unsynced, (none : Option String))] := by
  constructor <;> rfl

/-- C3 (amended): a cycle whose batch is non-empty fails on any non-200
response, marking every punch of the batch error with the response detail and
never marking one synced; a transport error also fails the cycle but leaves
every punch status unchanged. -/
theorem sync_failure_marks_error (cfg : ServerConfig) (dev : String) (db : DB)
    (status : Nat) (text emsg : String)
    (hen : cfg.enabled = true) (hurl : cfg.url ≠ "")
    (hne : (db.get_unsynced_punches 100).isEmpty = false) (hst : status ≠ 200) :
    (sync_now cfg dev db (NetResult.resp status text)).ok = false
    ∧ (∀ p ∈ db.get_unsynced_punches 100,
        { p with sync_status := SyncStatus.error,
                 sync_error := some ("Server returned " ++ toString status
                   ++ ": " ++ text) }
          ∈ (sync_now cfg dev db (NetResult.resp status text)).db.punches)
    ∧ (∀ q ∈ (sync_now cfg dev db (NetResult.resp status text)).db.punches,
        q.sync_status = SyncStatus.synced → q ∈ db.punches)
    ∧ (sync_now cfg dev db (NetResult.exn emsg)).ok = false
    ∧ (sync_now cfg dev db (NetResult.exn emsg)).db = db := by
  have hok : (sync_now cfg dev db (NetResult.resp status text)).ok = false := by
    simp [sync_now, hen, hurl, hne, hst]
  have hdb : (sync_now cfg dev db (NetResult.resp status text)).db.punches
      = db.punches.map (fun q =>
          if q.id ∈ (db.get_unsynced_punches 100).map (fun p => p.id) then
            { q with sync_status := SyncStatus.error,
                     sync_error := some ("Server returned " ++ toString status
                       ++ ": " ++ text) }
          else q) := by
    have h1 : (sync_now cfg dev db (NetResult.resp status text)).db
        = (db.get_unsynced_punches 100).foldl (fun d p =>
            d.mark_punch_sync_error p.id ("Server returned " ++ toString status
              ++ ": " ++ text)) db := by
      simp [sync_now, hen, hurl, hne, hst]
    rw [h1, mark_error_fold]
  refine ⟨hok, ?_, ?_, ?_, ?_⟩
  · intro p hp
    rw [hdb]
    have hpdb : p ∈ db.punches := by
      have h1 : p ∈ db.punches.filter
          (fun p => !(p.sync_status == SyncStatus.synced)) :=
        List.take_subset 100 _ hp
      exact List.mem_of_mem_filter h1
    refine List.mem_map.mpr ⟨p, hpdb, ?_⟩
    rw [if_pos (List.mem_map_of_mem (fun p => p.id) hp)]
  · intro q hq hsync
    rw [hdb] at hq
    rcases List.mem_map.mp hq with ⟨x, hx, hfx⟩
    by_cases hxm : x.id ∈ (db.get_unsynced_punches 100).map (fun p => p.id)
    · rw [if_pos hxm] at hfx
      rw [← hfx] at hsync
      simp at hsync
    · rw [if_neg hxm] at hfx
      rw [← hfx]
      exact hx
  · simp [sync_now, hen, hurl, hne]
  · simp [sync_now, hen, hurl, hne]

/-- C3 (witness): an HTTP 500 on a one-punch batch fails the cycle, via the
amended theorem at concrete inputs. -/
theorem sync_failure_marks_error_witness :
    (sync_now cfgOn "DEV" dbOne (NetResult.resp 500 "boom")).ok = false :=
  (sync_failure_marks_error cfgOn "DEV" dbOne 500 "boom" "x" rfl (by decide)
    rfl (by decide)).1

/-- C5: a successful cycle resets the retry counter to 0 and sleeps the
steady-state interval; a failed cycle increments the counter capped at
retry_max_attempts and sleeps retry_backoff_base to the power of the new
count, so the k-th consecutive failure sleeps base ^ min (k+1) cap — for the
concrete base-2 cap-5 configuration the delays are 2, 4, 8, 16, 32, 32, ... -/
theorem backoff_policy (cfg : ServerConfig) (rc k : Nat) :
    loopStep cfg rc true = (0, cfg.sync_interval_seconds)
    ∧ loopStep cfg rc false
        = (min (rc + 1) cfg.retry_max_attempts,
           cfg.retry_backoff_base ^ min (rc + 1) cfg.retry_max_attempts)
    ∧ failState cfg k = min k cfg.retry_max_attempts
    ∧ failDelay cfg k = cfg.retry_backoff_base ^ min (k + 1) cfg.retry_max_attempts
    ∧ (List.range 6).map (failDelay cfgOn) = [2, 4, 8, 16, 32, 32] := by
  have hstate : ∀ n, failState cfg n = min n cfg.retry_max_attempts := by
    intro n
    induction n with
    | zero => simp [failState]
    | succ n ih =>
      show (loopStep cfg (failState cfg n) false).1 = _
      rw [ih]
      simp only [loopStep, if_neg (by simp : ¬(false = true))]
      omega
  refine ⟨rfl, rfl, hstate k, ?_, by decide⟩
  unfold failDelay
  rw [hstate k]
  simp only [loopStep, if_neg (by simp : ¬(false = true))]
  congr 1
  omega

/-- C8: when sync is disabled by configuration, sync_now returns success with
the database untouched and no network request sent, and start launches no
background loop. -/
theorem sync_disabled_short_circuits (cfg : ServerConfig) (dev : String)
    (db : DB) (net : NetResult) (running : Bool) (h : cfg.enabled = false) :
    sync_now cfg dev db net = ⟨true, db, none⟩
    ∧ startLaunchesLoop cfg running = false := by
  constructor
  · simp [sync_now, h]
  · simp [startLaunchesLoop, h]

/-- C8 (witness): the disabled configuration short-circuits on a concrete
database and response. -/
theorem sync_disabled_short_circuits_witness :
    sync_now cfgOff "DEV" dbOne (NetResult.resp 200 "") = ⟨true, dbOne, none⟩ :=
  (sync_disabled_short_circuits cfgOff "DEV" dbOne (NetResult.resp 200 "")
    false rfl).1

/-- C9: when the unsynced batch is empty, sync_now succeeds, changes no state
and contacts no network, whatever the endpoint would have answered; calling it
twice in succession yields success both times with no state change. -/
theorem sync_empty_batch_idempotent (cfg : ServerConfig) (dev : String)
    (db : DB) (net : NetResult) (h : db.get_unsynced_punches 100 = []) :
    sync_now cfg dev db net = ⟨true, db, none⟩
    ∧ sync_now cfg dev (sync_now cfg dev db net).db net = ⟨true, db, none⟩ := by
  have h1 : sync_now cfg dev db net = ⟨true, db, none⟩ := by
    by_cases he : cfg.enabled = false
    · simp [sync_now, he]
    · by_cases hu : cfg.url = ""
      · simp [sync_now, he, hu]
      · simp [sync_now, he, hu, h]
  refine ⟨h1, ?_⟩
  rw [h1]
  exact h1

/-- C9 (witness): on a database with no punches, even a would-be failing
endpoint answer leaves the cycle a no-op success. -/
theorem sync_empty_batch_idempotent_witness :
    sync_now cfgOn "DEV" dbU (NetResult.resp 500 "boom") = ⟨true, dbU, none⟩ :=
  (sync_empty_batch_idempotent cfgOn "DEV" dbU (NetResult.resp 500 "boom")
    rfl).1

/-! ### Claim about the enrollment capture endpoint -/

/-- C6: with the user resolved and the camera capture succeeded, a template is
persisted exactly for an extraction that succeeds with quality at least
min_quality_score: extraction failure returns an unsuccessful response with no
state change; a quality below the threshold returns an unsuccessful response
reporting that quality, with the database and the user's template count
unchanged; otherwise the sample is accepted and exactly one template row for
the user is appended. -/
theorem capture_sample_quality_gate (minq : Nat) (db : DB) (uid n q : Nat)
    (xyt : String) (camErr : Option String) (u : User)
    (hu : db.get_user uid = some u) :
    ((capture_sample minq db uid n true camErr ExtractionRes.failed).1.success
        = false
      ∧ (capture_sample minq db uid n true camErr ExtractionRes.failed).1.message
        = "Feature extraction failed"
      ∧ (capture_sample minq db uid n true camErr ExtractionRes.failed).2 = db)
    ∧ (q < minq →
        (capture_sample minq db uid n true camErr
            (ExtractionRes.ok xyt q)).1.success = false
        ∧ (capture_sample minq db uid n true camErr
            (ExtractionRes.ok xyt q)).1.quality = q
        ∧ (capture_sample minq db uid n true camErr
            (ExtractionRes.ok xyt q)).2 = db
        ∧ (capture_sample minq db uid n true camErr
            (ExtractionRes.ok xyt q)).2.template_count uid
          = db.template_count uid)
    ∧ (minq ≤ q →
        (capture_sample minq db uid n true camErr
            (ExtractionRes.ok xyt q)).1.success = true
        ∧ (capture_sample minq db uid n true camErr
            (ExtractionRes.ok xyt q)).2.templates
          = db.templates ++ [⟨u.id, xyt, q⟩]) := by
  refine ⟨⟨?_, ?_, ?_⟩, ?_, ?_⟩
  · simp [capture_sample, hu]
  · simp [capture_sample, hu]
  · simp [capture_sample, hu]
  · intro h
    refine ⟨?_, ?_, ?_, ?_⟩ <;> simp [capture_sample, hu, h]
  · intro h
    have h2 : ¬ q < minq := not_lt.mpr h
    refine ⟨?_, ?_⟩ <;> simp [capture_sample, hu, h2, DB.add_template]

/-- C6 (witness): a quality-5 sample against threshold 20 leaves the concrete
database unchanged, via the quality-gate theorem at concrete inputs. -/
theorem capture_sample_quality_gate_witness :
    (capture_sample 20 dbU 7 1 true none (ExtractionRes.ok "f.xyt" 5)).2 = dbU :=
  ((capture_sample_quality_gate 20 dbU 7 1 5 "f.xyt" none u7 rfl).2.1
    (by decide)).2.2.1

end Checador
